/-
Verification of the pathway-planner backend core (optimizer, advanced
calculation engine, scenario validator, result cache) against its
natural-language specification.

Shallow embedding conventions:
- Python floats are modelled as rationals (the code performs only field
  arithmetic, min/max, comparisons and truncating conversions on them).
- Python dicts are modelled as insertion-ordered association lists
  (List (String, v)); insertion of a fresh key appends at the end,
  lookup returns the first (and in Python the only) binding of a key.
- Fallible Python code (raising statements, division) is modelled in the
  Except String monad; a raised exception is an Except.error value.
- numpy negative indexing on a one-dimensional array of length len maps
  an index k with -len <= k < 0 to len + k.
-/
import Mathlib

namespace PathwayPlanner

/-! ## Python value model and dict helpers -/

/-- Model of a dynamically typed Python value, as far as the validator and
constraint dictionaries need it. -/
inductive PyVal where
  | int (n : ℤ)
  | float (q : ℚ)
  | bool (b : Bool)
  | str (s : String)
  | list (xs : List PyVal)
  | dict (xs : List (String × PyVal))

/-- Lookup in an insertion-ordered dict: first binding of the key. -/
def dictGet (d : List (String × PyVal)) (k : String) : Option PyVal :=
  (d.find? (fun kv => kv.1 == k)).map (fun kv => kv.2)

/-- Python d.get(k, default). -/
def dictGetD (d : List (String × PyVal)) (k : String) (dflt : PyVal) : PyVal :=
  (dictGet d k).getD dflt

/-- Python membership test k in d for a dict d. -/
def dictContains (d : List (String × PyVal)) (k : String) : Bool :=
  (d.find? (fun kv => kv.1 == k)).isSome

/-- Python truthiness of a value. -/
def truthy : PyVal → Bool
  | .int n => n ≠ 0
  | .float q => q ≠ 0
  | .bool b => b
  | .str s => s ≠ ""
  | .list xs => ¬ xs.isEmpty
  | .dict xs => ¬ xs.isEmpty

/-- isinstance(v, (int, float)); Python bool is a subclass of int. -/
def isNum : PyVal → Bool
  | .int _ => true
  | .float _ => true
  | .bool _ => true
  | _ => false

/-- Numeric value of an int/float/bool Python value. -/
def numVal : PyVal → ℚ
  | .int n => (n : ℚ)
  | .float q => q
  | .bool b => if b then 1 else 0
  | _ => 0

/-- Python int(q) for a float: truncation toward zero. -/
def pyTrunc (q : ℚ) : ℤ :=
  if 0 ≤ q then ⌊q⌋ else ⌈q⌉

/-- Python int(v) conversion; none models a raised TypeError/ValueError. -/
def pyToInt : PyVal → Option ℤ
  | .int n => some n
  | .bool b => some (if b then 1 else 0)
  | .float q => some (pyTrunc q)
  | .str s => s.toInt?
  | _ => none

/-- Python comparison v > q for a numeric right-hand side; none models a
raised TypeError on a non-numeric left operand. -/
def pyGt (v : PyVal) (q : ℚ) : Option Bool :=
  if isNum v then some (decide (q < numVal v)) else none

/-- Python comparison v < q. -/
def pyLt (v : PyVal) (q : ℚ) : Option Bool :=
  if isNum v then some (decide (numVal v < q)) else none

/-- Python len(v); none models a raised TypeError. -/
def pyLen : PyVal → Option ℕ
  | .list xs => some xs.length
  | .str s => some s.length
  | .dict xs => some xs.length
  | _ => none

/-- Python iteration over a value: lists yield elements, strings yield
one-character strings, dicts yield their keys; none models a TypeError on
a non-iterable. -/
def pyIter : PyVal → Option (List PyVal)
  | .list xs => some xs
  | .str s => some (s.data.map (fun c => .str (String.mk [c])))
  | .dict xs => some (xs.map (fun kv => .str kv.1))
  | _ => none

/-- Python equality of a value with a string literal. -/
def pyEqStr (v : PyVal) (s : String) : Bool :=
  match v with
  | .str t => t == s
  | _ => false

/-! ## Optimizer embedding (app/services/optimizer.py)

The decision vector x is flattened as x[i * n_vehicle_types + j] for year
index i and vehicle-type index j.  A rate constraint generated by the
source loop is the closure
  fun x: max_annual_change - (x[hi] - x[lo])
and is represented symbolically by its pair of flat indices (hi, lo).
-/

/-- numpy indexing of a one-dimensional array of length len: a negative
index k with -len <= k wraps to len + k. -/
def npIdx (len : ℕ) (k : ℤ) : ℕ :=
  (if k < 0 then k + len else k).toNat

/-- Flat index (i * n_vehicle_types + j) as the source computes it, with
numpy wrapping applied for negative i. -/
def flatIdx (nYears nVeh : ℕ) (i : ℤ) (j : ℕ) : ℕ :=
  npIdx (nYears * nVeh) (i * nVeh + j)

/-- A rate-of-change constraint closure, represented by the two flat
indices it reads: the generated inequality is
0 <= max_annual_change - (x hi - x lo). -/
structure RateConstraint where
  hi : ℕ
  lo : ℕ
deriving Repr, DecidableEq

/-- The rate-of-change constraint set generated by the source loop
(optimizer.py lines 59-71): for i in range(n_years - 1) and each vehicle
type j, one maximum-increase and one maximum-decrease constraint between
flat indices i*n+j and (i-1)*n+j.  At i = 0 the index (i-1)*n+j is
negative and numpy wraps it to the last year row. -/
def rate_constraints (nYears nVeh : ℕ) : List RateConstraint :=
  (List.range (nYears - 1)).flatMap (fun i =>
    (List.range nVeh).flatMap (fun j =>
      [⟨flatIdx nYears nVeh i j, flatIdx nYears nVeh ((i : ℤ) - 1) j⟩,
       ⟨flatIdx nYears nVeh ((i : ℤ) - 1) j, flatIdx nYears nVeh i j⟩]))

/-- A rate constraint is satisfied by assignment x under bound mac when the
generated inequality function is nonnegative. -/
def rcSat (mac : ℚ) (x : ℕ → ℚ) (c : RateConstraint) : Prop :=
  0 ≤ mac - (x c.hi - x c.lo)

instance (mac : ℚ) (x : ℕ → ℚ) (c : RateConstraint) : Decidable (rcSat mac x c) := by
  unfold rcSat; infer_instance

/-- A constraint passed to the SLSQP solver: the target-reduction
constraint (always first in the list) or a rate-of-change constraint. -/
inductive OptConstraint where
  | target
  | rate (c : RateConstraint)
deriving Repr, DecidableEq

/-- The full constraint list built by optimize_transport_pathway: the
target constraint first, then (only if enable_constraints) the
rate-of-change constraints. -/
def optimizer_constraints (enable_constraints : Bool) (nYears nVeh : ℕ) :
    List OptConstraint :=
  OptConstraint.target ::
    (if enable_constraints then (rate_constraints nYears nVeh).map OptConstraint.rate else [])

/-- Result object of a scipy.optimize.minimize call, as far as the source
reads it (success, message, x, nit, nfev, fun). -/
structure MinimizeResult where
  success : Bool
  message : String
  x : List ℚ
  nit : ℕ
  nfev : ℕ
  fval : ℚ
deriving Repr, DecidableEq

/-- Input data dictionary of optimize_transport_pathway, restricted to the
fields that drive the control flow under study. -/
structure OptimizeData where
  years : List ℤ
  vehicle_types : List String
  max_annual_change : ℚ
  enable_constraints : Bool
deriving Repr

/-- Reshape the flat solver vector into a years-by-vehicle-types matrix
(result.x.reshape(n_years, n_vehicle_types).tolist()). -/
def reshape (nVeh : ℕ) (x : List ℚ) : List (List ℚ) :=
  if _h : nVeh = 0 then [] else
  match x with
  | [] => []
  | y :: ys => (y :: ys).take nVeh :: reshape nVeh ((y :: ys).drop nVeh)
termination_by x.length
decreasing_by
  simp only [List.length_drop, List.length_cons]
  omega

/-- Return dictionary of optimize_transport_pathway: either the normal
result dict (success, message, optimized_adoption, optimization_info) or
the dict built in the except branch (success=False, message, error).  The
detailed-results payload is not modelled: no claim reads it. -/
inductive OptimizeResult where
  | result (success : Bool) (message : String) (optimized_adoption : List (List ℚ))
      (iterations : ℕ) (function_evaluations : ℕ) (final_objective : ℚ)
  | failure (message : String) (error : String)
deriving Repr, DecidableEq

/-- The success field of the returned dictionary. -/
def OptimizeResult.successOf : OptimizeResult → Bool
  | .result s _ _ _ _ _ => s
  | .failure _ _ => false

/-- The message field of the returned dictionary. -/
def OptimizeResult.messageOf : OptimizeResult → String
  | .result _ m _ _ _ _ => m
  | .failure m _ => m

/-- Body of optimize_transport_pathway inside the try block.  The SLSQP
solver (scipy, external) is passed as a function from the constraint list
to its result object; everything else follows the source: input
validation raises ValueError, the solve runs once with the full
constraint list, and on reported failure is retried once with
relaxed_constraints = [constraints[0]]. -/
def optimize_body (solve : List OptConstraint → MinimizeResult)
    (data : OptimizeData) : Except String OptimizeResult := do
  if data.years.length < 2 then
    throw "At least 2 years must be specified"
  if data.vehicle_types.isEmpty then
    throw "At least one vehicle type must be specified"
  let nYears := data.years.length
  let nVeh := data.vehicle_types.length
  let constraints := optimizer_constraints data.enable_constraints nYears nVeh
  let result := solve constraints
  let result := if ¬ result.success then solve (constraints.take 1) else result
  pure (.result result.success result.message (reshape nVeh result.x)
    result.nit result.nfev result.fval)

/-- optimize_transport_pathway: the try/except wrapper around the body;
any raised exception is converted into the failure dictionary, never
propagated. -/
def optimize_transport_pathway (solve : List OptConstraint → MinimizeResult)
    (data : OptimizeData) : OptimizeResult :=
  match optimize_body solve data with
  | .ok r => r
  | .error e => .failure ("Optimization failed: " ++ e) e

/-- The sequence of constraint lists passed to the solver by one call of
optimize_transport_pathway, read off the same control flow as
optimize_body (lines 77-96 of the source): one call with the full list,
plus one retry with [constraints[0]] when the first call reports
failure. -/
def solver_invocations (solve : List OptConstraint → MinimizeResult)
    (data : OptimizeData) : List (List OptConstraint) :=
  if data.years.length < 2 then []
  else if data.vehicle_types.isEmpty then []
  else
    let constraints := optimizer_constraints data.enable_constraints
      data.years.length data.vehicle_types.length
    if (solve constraints).success then [constraints]
    else [constraints, constraints.take 1]

/-! ## Advanced calculation engine embedding (app/services/advanced_calculator.py) -/

/-- Generic lookup in an insertion-ordered association list. -/
def alistGet {α : Type} (d : List (String × α)) (k : String) : Option α :=
  (d.find? (fun kv => kv.1 == k)).map (fun kv => kv.2)

/-- Python d.get(k, default) on an association list. -/
def alistGetD {α : Type} (d : List (String × α)) (k : String) (dflt : α) : α :=
  (alistGet d k).getD dflt

/-- The Python accumulation pattern
if k not in d: d[k] = 0.0
d[k] += v
on an insertion-ordered dict of rationals. -/
def alistAdd (d : List (String × ℚ)) (k : String) (v : ℚ) : List (String × ℚ) :=
  match d with
  | [] => [(k, v)]
  | (k0, v0) :: rest => if k0 = k then (k0, v0 + v) :: rest else (k0, v0) :: alistAdd rest k v

/-- Python dict assignment d[k] = v: update in place when the key exists,
append otherwise. -/
def pyDictInsert {α : Type} (d : List (String × α)) (k : String) (v : α) :
    List (String × α) :=
  match d with
  | [] => [(k, v)]
  | (k0, v0) :: rest => if k0 = k then (k0, v) :: rest else (k0, v0) :: pyDictInsert rest k v

/-- Python float division; a zero divisor raises ZeroDivisionError. -/
def pyDiv (a b : ℚ) : Except String ℚ :=
  if b = 0 then throw "ZeroDivisionError: float division by zero" else pure (a / b)

/-- VehicleData dataclass. -/
structure VehicleData where
  vehicle_id : String
  vehicle_type : String
  category : String
  technology : String
  fuel_type : String
  emissions_factor_tailpipe : ℚ
  emissions_factor_lifecycle : ℚ
  annual_mileage : ℚ
  fuel_efficiency : ℚ
  purchase_cost : ℚ
  operating_cost_per_mile : ℚ
  infrastructure_requirements : List (String × ℚ)
  technology_readiness_level : ℤ
  market_penetration_rate : ℚ
  regulatory_status : String
deriving Repr, DecidableEq

/-- The scenario_data dictionary, restricted to the only field the
per-vehicle-type calculation path reads (adoption_rates; see
_calculate_adoption_rates — _get_vehicle_data ignores scenario_data). -/
structure ScenarioData where
  adoption_rates : List (String × List (String × ℚ))
deriving Repr, DecidableEq

/-- Demo passenger car i of the hard-coded base_vehicles roster. -/
def mkDemoCar (i : ℕ) : VehicleData where
  vehicle_id := "car_" ++ toString i
  vehicle_type := "Passenger Cars"
  category := "Small"
  technology := if i % 3 = 0 then "Electric" else if i % 3 = 1 then "Hybrid" else "Petrol"
  fuel_type := if i % 3 = 0 then "Electric" else if i % 3 = 1 then "Hybrid" else "Petrol"
  emissions_factor_tailpipe := if i % 3 = 0 then 0 else if i % 3 = 1 then 0.13 else 0.18
  emissions_factor_lifecycle := if i % 3 = 0 then 0.06 else if i % 3 = 1 then 0.17 else 0.21
  annual_mileage := 8000 + i * 500
  fuel_efficiency := if i % 3 = 0 then 0.85 else if i % 3 = 1 then 0.75 else 0.65
  purchase_cost := if i % 3 = 0 then 35000 else if i % 3 = 1 then 28000 else 25000
  operating_cost_per_mile := if i % 3 = 0 then 0.08 else if i % 3 = 1 then 0.12 else 0.15
  infrastructure_requirements := [("charging_points", if i % 3 = 0 then 1 else 0)]
  technology_readiness_level := if i % 3 = 0 then 9 else if i % 3 = 1 then 8 else 9
  market_penetration_rate := if i % 3 = 0 then 0.3 else if i % 3 = 1 then 0.4 else 0.8
  regulatory_status := "Approved"

/-- Demo bus i of the hard-coded base_vehicles roster. -/
def mkDemoBus (i : ℕ) : VehicleData where
  vehicle_id := "bus_" ++ toString i
  vehicle_type := "Buses"
  category := "Single Deck"
  technology := if i % 2 = 0 then "Electric" else "Diesel"
  fuel_type := if i % 2 = 0 then "Electric" else "Diesel"
  emissions_factor_tailpipe := if i % 2 = 0 then 0 else 0.85
  emissions_factor_lifecycle := if i % 2 = 0 then 0.25 else 0.95
  annual_mileage := 25000 + i * 2000
  fuel_efficiency := if i % 2 = 0 then 0.80 else 0.70
  purchase_cost := if i % 2 = 0 then 350000 else 250000
  operating_cost_per_mile := if i % 2 = 0 then 0.18 else 0.25
  infrastructure_requirements := [("charging_points", if i % 2 = 0 then 2 else 0)]
  technology_readiness_level := if i % 2 = 0 then 8 else 9
  market_penetration_rate := if i % 2 = 0 then 0.2 else 0.8
  regulatory_status := "Approved"

/-- base_vehicles.get(vehicle_type, []): the rosters only exist for
Passenger Cars (5 cars) and Buses (3 buses). -/
def base_vehicles (vehicle_type : String) : List VehicleData :=
  if vehicle_type = "Passenger Cars" then (List.range 5).map mkDemoCar
  else if vehicle_type = "Buses" then (List.range 3).map mkDemoBus
  else []

/-- year_factor = (year - 2020) / 30. -/
def year_factor (year : ℤ) : ℚ :=
  ((year : ℚ) - 2020) / 30

/-- The year-progression adjustment applied in place to each roster
vehicle (advanced_calculator.py lines 332-339): readiness is capped at 9
after adding int(year_factor * 2), and both costs are scaled down. -/
def adjust_vehicle (year : ℤ) (v : VehicleData) : VehicleData :=
  let yf := year_factor year
  { v with
    technology_readiness_level := min 9 (v.technology_readiness_level + pyTrunc (yf * 2)),
    purchase_cost := v.purchase_cost * (1 - yf * 0.3),
    operating_cost_per_mile := v.operating_cost_per_mile * (1 - yf * 0.2) }

/-- _get_vehicle_data: a fresh roster list is built on every call (the
base_vehicles literal lives inside the method body), the year adjustment
is applied to each vehicle, and the result is keyed by vehicle_id.  The
demo vehicle ids within one roster are pairwise distinct.  scenario_data
is accepted but never read. -/
def get_vehicle_data (vehicle_type : String) (year : ℤ) (_scenario_data : ScenarioData) :
    List (String × VehicleData) :=
  ((base_vehicles vehicle_type).map (adjust_vehicle year)).map (fun v => (v.vehicle_id, v))

/-- _calculate_adoption_rates: technology-specific adoption curves applied
per roster vehicle; base_rate is scenario adoption_rates[vehicle_type]
[technology] with default 0.1; constraints is accepted but never read. -/
def calculate_adoption_rates (vehicle_type : String) (year : ℤ)
    (vehicle_data : List (String × VehicleData)) (_constraints : List (String × PyVal))
    (scenario_data : ScenarioData) : List (String × ℚ) :=
  let base_rates := alistGetD scenario_data.adoption_rates vehicle_type []
  let yf := year_factor year
  vehicle_data.map (fun kv =>
    let v := kv.2
    let base_rate := alistGetD base_rates v.technology 0.1
    (kv.1,
      if v.technology = "Electric" then min 0.95 (base_rate * (1 + yf * 3))
      else if v.technology = "Hybrid" then min 0.8 (base_rate * (1 + yf * 2) * (1 - yf * 0.5))
      else max 0.05 (base_rate * (1 - yf * 2))))

/-- Return dict of _calculate_emissions. -/
structure EmissionsResult where
  total_emissions : ℚ
  emissions_by_technology : List (String × ℚ)
  emissions_per_vehicle : List (String × ℚ)
deriving Repr, DecidableEq

/-- The accumulation loop of _calculate_emissions. -/
def emissionsLoop (rates : List (String × ℚ)) :
    List (String × VehicleData) → ℚ → List (String × ℚ) → ℚ × List (String × ℚ)
  | [], tot, byTech => (tot, byTech)
  | (vid, v) :: rest, tot, byTech =>
      let ar := alistGetD rates vid 0
      let ve := ar * v.emissions_factor_lifecycle * v.annual_mileage
      emissionsLoop rates rest (tot + ve) (alistAdd byTech v.technology ve)

/-- _calculate_emissions. -/
def calculate_emissions (vehicle_data : List (String × VehicleData))
    (adoption_rates : List (String × ℚ)) (_year : ℤ) : EmissionsResult :=
  let (tot, byTech) := emissionsLoop adoption_rates vehicle_data 0 []
  { total_emissions := tot,
    emissions_by_technology := byTech,
    emissions_per_vehicle := vehicle_data.map (fun kv =>
      (kv.1, alistGetD adoption_rates kv.1 0 * kv.2.emissions_factor_lifecycle *
        kv.2.annual_mileage)) }

/-- A purchase/operating cost pair. -/
structure CostPair where
  purchase : ℚ
  operating : ℚ
deriving Repr, DecidableEq

/-- Accumulation into costs_by_technology. -/
def alistAddCost (d : List (String × CostPair)) (k : String) (p o : ℚ) :
    List (String × CostPair) :=
  match d with
  | [] => [(k, ⟨p, o⟩)]
  | (k0, v0) :: rest =>
      if k0 = k then (k0, ⟨v0.purchase + p, v0.operating + o⟩) :: rest
      else (k0, v0) :: alistAddCost rest k p o

/-- Return dict of _calculate_costs. -/
structure CostResult where
  total_purchase_cost : ℚ
  total_operating_cost : ℚ
  total_cost : ℚ
  costs_by_technology : List (String × CostPair)
  cost_per_vehicle : List (String × CostPair)
deriving Repr, DecidableEq

/-- The accumulation loop of _calculate_costs (vehicle_lifetime = 15). -/
def costsLoop (rates : List (String × ℚ)) :
    List (String × VehicleData) → ℚ → ℚ → List (String × CostPair) →
    ℚ × ℚ × List (String × CostPair)
  | [], tp, topc, byTech => (tp, topc, byTech)
  | (vid, v) :: rest, tp, topc, byTech =>
      let ar := alistGetD rates vid 0
      let apc := v.purchase_cost / 15 * ar
      let aoc := v.operating_cost_per_mile * v.annual_mileage * ar
      costsLoop rates rest (tp + apc) (topc + aoc) (alistAddCost byTech v.technology apc aoc)

/-- _calculate_costs. -/
def calculate_costs (vehicle_data : List (String × VehicleData))
    (adoption_rates : List (String × ℚ)) (_year : ℤ) : CostResult :=
  let (tp, topc, byTech) := costsLoop adoption_rates vehicle_data 0 0 []
  { total_purchase_cost := tp,
    total_operating_cost := topc,
    total_cost := tp + topc,
    costs_by_technology := byTech,
    cost_per_vehicle := vehicle_data.map (fun kv =>
      (kv.1, ⟨kv.2.purchase_cost / 15 * alistGetD adoption_rates kv.1 0,
        kv.2.operating_cost_per_mile * kv.2.annual_mileage * alistGetD adoption_rates kv.1 0⟩)) }

/-- energy_factors.get(fuel_type, 1.0). -/
def energy_factor (fuel_type : String) : ℚ :=
  if fuel_type = "Electric" then 1
  else if fuel_type = "Petrol" then 9.5
  else if fuel_type = "Diesel" then 10.7
  else if fuel_type = "Hybrid" then 5
  else if fuel_type = "Hydrogen" then 33.3
  else 1

/-- Return dict of _calculate_energy_consumption. -/
structure EnergyResult where
  total_energy_consumption : ℚ
  energy_by_fuel_type : List (String × ℚ)
  energy_per_vehicle : List (String × ℚ)
deriving Repr, DecidableEq

/-- The accumulation loop of _calculate_energy_consumption.  The division
annual_mileage / fuel_efficiency is performed unconditionally for every
vehicle; there is no zero guard in the source. -/
def energyLoop (rates : List (String × ℚ)) :
    List (String × VehicleData) → ℚ → List (String × ℚ) →
    Except String (ℚ × List (String × ℚ))
  | [], tot, byFuel => pure (tot, byFuel)
  | (vid, v) :: rest, tot, byFuel => do
      let ar := alistGetD rates vid 0
      let q ← pyDiv v.annual_mileage v.fuel_efficiency
      let ve := ar * q * energy_factor v.fuel_type
      energyLoop rates rest (tot + ve) (alistAdd byFuel v.fuel_type ve)

/-- _calculate_energy_consumption: the loop, then the energy_per_vehicle
dict comprehension (which repeats the same unguarded division). -/
def calculate_energy_consumption (vehicle_data : List (String × VehicleData))
    (adoption_rates : List (String × ℚ)) (_year : ℤ) : Except String EnergyResult := do
  let (tot, byFuel) ← energyLoop adoption_rates vehicle_data 0 []
  let perVehicle ← vehicle_data.mapM (fun kv => do
    let q ← pyDiv kv.2.annual_mileage kv.2.fuel_efficiency
    pure (kv.1, alistGetD adoption_rates kv.1 0 * q * energy_factor kv.2.fuel_type))
  pure { total_energy_consumption := tot,
         energy_by_fuel_type := byFuel,
         energy_per_vehicle := perVehicle }

/-- Return dict of _calculate_infrastructure_needs. -/
structure InfrastructureResult where
  charging_points : ℚ
  hydrogen_stations : ℚ
  maintenance_facilities : ℚ
  grid_capacity_mw : ℚ
deriving Repr, DecidableEq

/-- The accumulation loop of _calculate_infrastructure_needs. -/
def infraLoop (rates : List (String × ℚ)) :
    List (String × VehicleData) → InfrastructureResult → InfrastructureResult
  | [], acc => acc
  | (vid, v) :: rest, acc =>
      let ar := alistGetD rates vid 0
      let acc := if (alistGet v.infrastructure_requirements "charging_points").isSome then
          { acc with charging_points := acc.charging_points +
              alistGetD v.infrastructure_requirements "charging_points" 0 * ar }
        else acc
      let acc := if v.fuel_type = "Hydrogen" then
          { acc with hydrogen_stations := acc.hydrogen_stations + ar * 0.1 }
        else acc
      let acc := { acc with maintenance_facilities := acc.maintenance_facilities + ar * 0.01 }
      let acc := if v.fuel_type = "Electric" then
          { acc with grid_capacity_mw := acc.grid_capacity_mw + ar * 0.007 }
        else acc
      infraLoop rates rest acc

/-- _calculate_infrastructure_needs. -/
def calculate_infrastructure_needs (vehicle_data : List (String × VehicleData))
    (adoption_rates : List (String × ℚ)) (_year : ℤ) : InfrastructureResult :=
  infraLoop adoption_rates vehicle_data ⟨0, 0, 0, 0⟩

/-- Return dict of _calculate_health_impact. -/
structure HealthImpact where
  air_quality_improvement : ℚ
  health_cost_savings : ℚ
  lives_saved : ℤ
deriving Repr, DecidableEq

/-- The tailpipe-emissions accumulation loop of _calculate_health_impact. -/
def healthEmissionsLoop (rates : List (String × ℚ)) :
    List (String × VehicleData) → ℚ → ℚ
  | [], tot => tot
  | (vid, v) :: rest, tot =>
      healthEmissionsLoop rates rest
        (tot + v.emissions_factor_tailpipe * v.annual_mileage * alistGetD rates vid 0)

/-- _calculate_health_impact. -/
def calculate_health_impact (vehicle_data : List (String × VehicleData))
    (adoption_rates : List (String × ℚ)) (_year : ℤ) : HealthImpact :=
  let tot := healthEmissionsLoop adoption_rates vehicle_data 0
  { air_quality_improvement := max 0 (100 - tot * 10),
    health_cost_savings := tot * 50,
    lives_saved := pyTrunc (tot * 0.001) }

/-- Return dict of _calculate_economic_impact. -/
structure EconomicImpact where
  job_creation : ℤ
  gdp_impact : ℚ
  investment_required : ℚ
  savings_realized : ℚ
deriving Repr, DecidableEq

/-- The accumulation loop of _calculate_economic_impact. -/
def economicLoop (rates : List (String × ℚ)) :
    List (String × VehicleData) → ℚ × ℚ → ℚ × ℚ
  | [], acc => acc
  | (vid, v) :: rest, acc =>
      let ar := alistGetD rates vid 0
      economicLoop rates rest
        (acc.1 + v.purchase_cost * ar,
         acc.2 + v.operating_cost_per_mile * v.annual_mileage * ar * 0.3)

/-- _calculate_economic_impact. -/
def calculate_economic_impact (vehicle_data : List (String × VehicleData))
    (adoption_rates : List (String × ℚ)) (_year : ℤ) : EconomicImpact :=
  let (ti, ts) := economicLoop adoption_rates vehicle_data (0, 0)
  { job_creation := pyTrunc (ti / 50000),
    gdp_impact := ti * 0.02,
    investment_required := ti,
    savings_realized := ts }

/-- The calculations dict assembled by _calculate_vehicle_type. -/
structure Calculations where
  emissions : EmissionsResult
  cost : CostResult
  energy : EnergyResult
  infrastructure : InfrastructureResult
  health_impact : HealthImpact
  economic_impact : EconomicImpact
deriving Repr, DecidableEq

/-! ### ConstraintManager -/

/-- Compliance record returned by the constraint checkers. -/
structure Compliance where
  compliant : Bool
  violations : List String
  warnings : List String
deriving Repr, DecidableEq

/-- Type of the five constraint evaluators: they receive the vehicle type,
year, calculations dict and the constraint definition. -/
def CheckerFun : Type :=
  String → ℤ → Calculations → PyVal → Compliance

/-- _check_technology_readiness: returns the literal compliant record. -/
def check_technology_readiness : CheckerFun :=
  fun _vt _year _calcs _cd => ⟨true, [], []⟩

/-- _check_market_penetration. -/
def check_market_penetration : CheckerFun :=
  fun _vt _year _calcs _cd => ⟨true, [], []⟩

/-- _check_infrastructure_capacity. -/
def check_infrastructure_capacity : CheckerFun :=
  fun _vt _year _calcs _cd => ⟨true, [], []⟩

/-- _check_cost_constraints. -/
def check_cost_constraints : CheckerFun :=
  fun _vt _year _calcs _cd => ⟨true, [], []⟩

/-- _check_policy_constraints. -/
def check_policy_constraints : CheckerFun :=
  fun _vt _year _calcs _cd => ⟨true, [], []⟩

/-- self.constraint_types: the registry built in ConstraintManager init,
in insertion order. -/
def constraint_types : List (String × CheckerFun) :=
  [("technology_readiness", check_technology_readiness),
   ("market_penetration", check_market_penetration),
   ("infrastructure_capacity", check_infrastructure_capacity),
   ("cost_constraints", check_cost_constraints),
   ("policy_constraints", check_policy_constraints)]

/-- One iteration of the check_vehicle_constraints loop: when the
constraint name appears in the constraints dict, run its evaluator,
record violations only on non-compliance, and always extend warnings. -/
def checkStep (vt : String) (year : ℤ) (calcs : Calculations)
    (constraints : List (String × PyVal)) (compliance : Compliance)
    (entry : String × CheckerFun) : Compliance :=
  if dictContains constraints entry.1 then
    let result := entry.2 vt year calcs (dictGetD constraints entry.1 (.dict []))
    let compliance :=
      if ¬ result.compliant then
        { compliance with
          compliant := false,
          violations := compliance.violations ++ result.violations }
      else compliance
    { compliance with warnings := compliance.warnings ++ result.warnings }
  else compliance

/-- ConstraintManager.check_vehicle_constraints. -/
def check_vehicle_constraints (vt : String) (year : ℤ) (calcs : Calculations)
    (constraints : List (String × PyVal)) : Compliance :=
  constraint_types.foldl (checkStep vt year calcs constraints) ⟨true, [], []⟩

/-- One entry of the constraint_violations list built by
analyze_constraints. -/
structure ViolationRecord where
  year : ℤ
  vehicle_type : String
  violations : List String
deriving Repr, DecidableEq

/-- Return dict of analyze_constraints. -/
structure ConstraintAnalysis where
  overall_compliance : Bool
  constraint_violations : List ViolationRecord
  critical_violations : List ViolationRecord
  recommendations : List String
deriving Repr, DecidableEq

/-! ### Result structures and AggregationEngine -/

/-- Return dict of _calculate_vehicle_type. -/
structure VehicleTypeResult where
  vehicle_type : String
  year : ℤ
  vehicle_data : List (String × VehicleData)
  adoption_rates : List (String × ℚ)
  calculations : Calculations
  constraint_compliance : Compliance
deriving Repr, DecidableEq

/-- Return dict of AggregationEngine.aggregate_by_year. -/
structure YearAggregate where
  year : ℤ
  total_emissions : ℚ
  total_cost : ℚ
  total_energy : ℚ
  emissions_by_vehicle_type : List (String × ℚ)
  costs_by_vehicle_type : List (String × ℚ)
  energy_by_vehicle_type : List (String × ℚ)
deriving Repr, DecidableEq

/-- One year entry of results.per_year_results as built by
_calculate_year: the per-vehicle-type calculations plus the year-level
aggregate assigned from aggregate_by_year. -/
structure YearResults where
  year : ℤ
  vehicle_calculations : List (String × VehicleTypeResult)
  aggregated_metrics : YearAggregate
deriving Repr, DecidableEq

/-- The slice of the calculate_scenario results dict that the aggregation
and constraint-analysis passes read. -/
structure EngineResults where
  vehicle_types : List String
  per_year_results : List (ℤ × YearResults)
deriving Repr, DecidableEq

/-- Inner loop of analyze_constraints over the year entry of
vehicle_calculations. -/
def analyzeLoopVt (year : ℤ) :
    ConstraintAnalysis → List (String × VehicleTypeResult) → ConstraintAnalysis
  | analysis, [] => analysis
  | analysis, (vt, vd) :: rest =>
      let analysis :=
        if ¬ vd.constraint_compliance.compliant then
          { analysis with
            overall_compliance := false,
            constraint_violations := analysis.constraint_violations ++
              [⟨year, vt, vd.constraint_compliance.violations⟩] }
        else analysis
      analyzeLoopVt year analysis rest

/-- ConstraintManager.analyze_constraints: walks every
(year, vehicle_type) cell; critical_violations and recommendations are
initialized empty and never appended to. -/
def analyze_constraints (results : EngineResults)
    (_constraints : List (String × PyVal)) : ConstraintAnalysis :=
  results.per_year_results.foldl
    (fun analysis p => analyzeLoopVt p.1 analysis p.2.vehicle_calculations)
    ⟨true, [], [], []⟩

/-- Loop body of AggregationEngine.aggregate_by_year: sums
total_emissions, total_cost and total_energy over the vehicle types
present in year_data and records the per-vehicle-type breakdowns (dict
assignment; calculate_scenario feeds a dict, so keys are unique). -/
def aggStep (agg : YearAggregate) (p : String × VehicleTypeResult) : YearAggregate :=
  let calcs := p.2.calculations
  let vehicle_emissions := calcs.emissions.total_emissions
  let vehicle_cost := calcs.cost.total_cost
  let vehicle_energy := calcs.energy.total_energy_consumption
  { agg with
    total_emissions := agg.total_emissions + vehicle_emissions,
    emissions_by_vehicle_type := agg.emissions_by_vehicle_type ++ [(p.1, vehicle_emissions)],
    total_cost := agg.total_cost + vehicle_cost,
    costs_by_vehicle_type := agg.costs_by_vehicle_type ++ [(p.1, vehicle_cost)],
    total_energy := agg.total_energy + vehicle_energy,
    energy_by_vehicle_type := agg.energy_by_vehicle_type ++ [(p.1, vehicle_energy)] }

/-- AggregationEngine.aggregate_by_year as the fold of its loop body. -/
def aggregate_by_year (year : ℤ) (year_data : List (String × VehicleTypeResult)) :
    YearAggregate :=
  year_data.foldl aggStep ⟨year, 0, 0, 0, [], [], []⟩

/-- The scenario_summary dict of perform_comprehensive_aggregation. -/
structure ScenarioSummary where
  total_emissions : ℚ
  total_cost : ℚ
  years_analyzed : ℕ
  vehicle_types_analyzed : ℕ
deriving Repr, DecidableEq

/-- One vehicle_type_totals entry. -/
structure VehicleTypeTotals where
  total_emissions : ℚ
  total_cost : ℚ
  total_energy : ℚ
deriving Repr, DecidableEq

/-- Return dict of perform_comprehensive_aggregation. -/
structure ComprehensiveAggregation where
  scenario_summary : ScenarioSummary
  yearly_totals : List (ℤ × YearAggregate)
  vehicle_type_totals : List (String × VehicleTypeTotals)
deriving Repr, DecidableEq

/-- Loop body of the vehicle_type_totals computation: a year in which vt
appears in vehicle_calculations contributes its calculations totals, a
year in which it is absent contributes nothing (the membership guard in
the source). -/
def vtTotalsStep (vt : String) (acc : VehicleTypeTotals) (p : ℤ × YearResults) :
    VehicleTypeTotals :=
  match alistGet p.2.vehicle_calculations vt with
  | some vd =>
      { total_emissions := acc.total_emissions + vd.calculations.emissions.total_emissions,
        total_cost := acc.total_cost + vd.calculations.cost.total_cost,
        total_energy := acc.total_energy + vd.calculations.energy.total_energy_consumption }
  | none => acc

/-- The inner loop computing vehicle_type_totals[vt]. -/
def vehicleTypeTotalFor (results : EngineResults) (vt : String) : VehicleTypeTotals :=
  results.per_year_results.foldl (vtTotalsStep vt) ⟨0, 0, 0⟩

/-- AggregationEngine.perform_comprehensive_aggregation. -/
def perform_comprehensive_aggregation (results : EngineResults) :
    ComprehensiveAggregation :=
  { scenario_summary :=
      { total_emissions :=
          (results.per_year_results.map (fun p => p.2.aggregated_metrics.total_emissions)).sum,
        total_cost :=
          (results.per_year_results.map (fun p => p.2.aggregated_metrics.total_cost)).sum,
        years_analyzed := results.per_year_results.length,
        vehicle_types_analyzed := results.vehicle_types.length },
    yearly_totals :=
      results.per_year_results.map (fun p => (p.1, p.2.aggregated_metrics)),
    vehicle_type_totals :=
      results.vehicle_types.map (fun vt => (vt, vehicleTypeTotalFor results vt)) }

/-! ### Engine state, _calculate_vehicle_type, cache -/

/-- A cached results dict, projected to the fields the cache logic reads:
the embedded scenario_id (matched by get_cached_result) and the
calculation_timestamp (part of the cache key). -/
structure CachedResult where
  scenario_id : String
  calculation_timestamp : String
deriving Repr, DecidableEq

/-- The mutable state of an AdvancedCalculationEngine instance, as far as
the claims read it: the calculation_cache dict. -/
structure EngineState where
  calculation_cache : List (String × CachedResult)
deriving Repr, DecidableEq

/-- _cache_results: store under the composite key
scenario_id + underscore + calculation_timestamp. -/
def cache_results (state : EngineState) (results : CachedResult) : EngineState :=
  { state with
    calculation_cache :=
      pyDictInsert state.calculation_cache
        (results.scenario_id ++ "_" ++ results.calculation_timestamp) results }

/-- get_cached_result (advanced_endpoints.py lines 299-304): linear scan
over the cache in dict (= insertion) order, returning the first stored
result whose embedded scenario_id equals the argument, None on a miss. -/
def get_cached_result (state : EngineState) (scenario_id : String) : Option CachedResult :=
  (state.calculation_cache.find? (fun kv => kv.2.scenario_id == scenario_id)).map
    (fun kv => kv.2)

/-- _calculate_vehicle_type, as a method of the engine: the state is
threaded through to model the Python method receiver; the body reads only
its arguments (the constraint manager is stateless) and leaves the engine
state untouched.  The energy entry of the calculations dict is the only
fallible one (unguarded division); an exception aborts the whole dict
construction, as in Python. -/
def calculate_vehicle_type (self : EngineState) (year : ℤ) (vehicle_type : String)
    (constraints : List (String × PyVal)) (scenario_data : ScenarioData) :
    Except String (VehicleTypeResult × EngineState) := do
  let vehicle_data := get_vehicle_data vehicle_type year scenario_data
  let adoption_rates := calculate_adoption_rates vehicle_type year vehicle_data
    constraints scenario_data
  let emissions := calculate_emissions vehicle_data adoption_rates year
  let cost := calculate_costs vehicle_data adoption_rates year
  let energy ← calculate_energy_consumption vehicle_data adoption_rates year
  let infrastructure := calculate_infrastructure_needs vehicle_data adoption_rates year
  let health := calculate_health_impact vehicle_data adoption_rates year
  let economic := calculate_economic_impact vehicle_data adoption_rates year
  let calculations : Calculations := ⟨emissions, cost, energy, infrastructure, health, economic⟩
  pure ({ vehicle_type := vehicle_type,
          year := year,
          vehicle_data := vehicle_data,
          adoption_rates := adoption_rates,
          calculations := calculations,
          constraint_compliance :=
            check_vehicle_constraints vehicle_type year calculations constraints },
        self)

/-- The years rule of AdvancedCalculationEngine._validate_scenario_data
(lines 183-189): at least two years, every year an integer greater than
2020. -/
def engineYearsOk (years : List ℤ) : Bool :=
  if years.length < 2 then false
  else years.all (fun y => decide (2020 < y))

/-! ## Scenario parameter validator embedding (app/services/scenario.py)

validate_scenario_parameters operates on a dynamically typed parameters
dict; it is embedded over PyVal dicts in the Except monad, since a few
late statements (the vehicle-type iteration and the cross-field
suggestion comparisons) can raise TypeError on ill-typed input.
-/

/-- str(v) as used in the f-string warnings; only the str case is ever
exercised by the claims. -/
def pyValStr : PyVal → String
  | .str s => s
  | .int n => toString n
  | .bool b => if b then "True" else "False"
  | .float q => toString q
  | .list _ => "<list>"
  | .dict _ => "<dict>"

/-- Return dict of validate_scenario_parameters. -/
structure ValidationResult where
  valid : Bool
  errors : List String
  warnings : List String
  suggestions : List String
deriving Repr, DecidableEq

/-- The required_keys list. -/
def required_keys : List String :=
  ["years", "target_emissions_reduction", "max_annual_change", "vehicle_types"]

/-- Missing-required-parameter errors. -/
def missingKeyErrors (parameters : List (String × PyVal)) : List String :=
  required_keys.filterMap (fun k =>
    if dictContains parameters k then none
    else some ("Missing required parameter: " ++ k))

/-- [int(year) for year in years]: all-or-nothing conversion, a failing
element raises and the except branch reports one error. -/
def intify : List PyVal → Option (List ℤ)
  | [] => some []
  | v :: rest =>
      match pyToInt v with
      | some n => (intify rest).map (fun ns => n :: ns)
      | none => none

/-- Insertion into a sorted list (model of Python sorted, which for
integer lists is any stable sort). -/
def sortedInsert (n : ℤ) : List ℤ → List ℤ
  | [] => [n]
  | m :: rest => if n ≤ m then n :: m :: rest else m :: sortedInsert n rest

/-- Insertion sort, modelling sorted(years_int). -/
def insSort : List ℤ → List ℤ
  | [] => []
  | n :: rest => sortedInsert n (insSort rest)

/-- The adjacent-gap loop of the years validation: gap < 1 is an error,
gap > 10 a warning, processed in ascending pair order. -/
def gapChecks : List ℤ → List String × List String
  | a :: b :: rest =>
      let g := b - a
      let (es, ws) := gapChecks (b :: rest)
      (if g < 1 then "Years must have at least 1 year gap" :: es else es,
       if g < 1 then ws
       else if g > 10 then
         ("Large gap between " ++ toString a ++ " and " ++ toString b ++
           " - consider intermediate years") :: ws
       else ws)
  | _ => ([], [])

/-- The years section of validate_scenario_parameters (lines 28-58):
returns the errors and warnings it appends. -/
def yearsSection (years : PyVal) : List String × List String :=
  match years with
  | .list xs =>
      if xs.length < 2 then (["At least 2 years must be specified"], [])
      else if xs.length > 10 then (["Maximum 10 years allowed"], [])
      else
        match intify xs with
        | none => (["Years must be valid integers"], [])
        | some ys =>
            let ascErr := if ys ≠ insSort ys then ["Years must be in ascending order"] else []
            let (gapErrs, gapWarns) := gapChecks ys
            let warnLow :=
              if ys.headD 0 < 2020 then
                ["Starting year before 2020 may not reflect current technology"]
              else []
            let warnHigh :=
              if (ys.getLast?).getD 0 > 2060 then
                ["End year after 2060 may have high uncertainty"]
              else []
            (ascErr ++ gapErrs, gapWarns ++ warnLow ++ warnHigh)
  | _ => (["Years must be a list"], [])

/-- The target_emissions_reduction section (lines 60-70): errors,
warnings, suggestions. -/
def targetSection (target : PyVal) : List String × List String × List String :=
  if ¬ isNum target then
    (["Target emissions reduction must be a number"], [], [])
  else if ¬ (0 ≤ numVal target ∧ numVal target ≤ 1) then
    (["Target emissions reduction must be between 0 and 1"], [], [])
  else if numVal target > 0.8 then
    ([], ["Very high reduction target - ensure this is realistic"],
      ["Consider breaking down into intermediate targets"])
  else if numVal target < 0.1 then
    ([], ["Low reduction target - may not achieve significant decarbonization"], [])
  else ([], [], [])

/-- The max_annual_change section (lines 72-82). -/
def maxChangeSection (max_change : PyVal) : List String × List String × List String :=
  if ¬ isNum max_change then
    (["Maximum annual change must be a number"], [], [])
  else if ¬ (0.05 ≤ numVal max_change ∧ numVal max_change ≤ 0.3) then
    (["Maximum annual change must be between 0.05 and 0.3"], [], [])
  else if numVal max_change > 0.2 then
    ([], ["High annual change rate - may be challenging to achieve"],
      ["Consider a more gradual transition"])
  else if numVal max_change < 0.08 then
    ([], ["Low annual change rate - may not meet targets"], [])
  else ([], [], [])

/-- The vehicle_types list checks (lines 84-92): an empty or non-list
value is an error; more than 10 entries only appends a warning and a
suggestion. -/
def vehicleTypesSection (vts : PyVal) : List String × List String × List String :=
  match vts with
  | .list xs =>
      if xs.isEmpty then (["At least one vehicle type must be specified"], [], [])
      else if xs.length > 10 then
        ([], ["Many vehicle types selected - this may slow down optimization"],
          ["Consider focusing on key vehicle categories"])
      else ([], [], [])
  | _ => (["Vehicle types must be a list"], [], [])

/-- The recognized category list (valid_categories, lines 95-98). -/
def valid_categories : List String :=
  ["Passenger Cars", "Buses", "Heavy Goods Vehicles (HGVs)",
   "Vans / Light Goods Vehicles (LGVs)", "Motorcycles"]

/-- Python membership vt in valid_categories for a dynamic value. -/
def pyInCategories (v : PyVal) : Bool :=
  valid_categories.any (fun s => pyEqStr v s)

/-- The unknown-vehicle-type loop (lines 99-101): appends a warning (not
an error) per unrecognized entry; iterating a non-iterable raises. -/
def unknownTypeWarnings (vts : PyVal) : Except String (List String) := do
  let elems ←
    match pyIter vts with
    | some es => pure es
    | none => throw "TypeError: object is not iterable"
  pure (elems.filterMap (fun v =>
    if pyInCategories v then none
    else some ("Unknown vehicle type: " ++ pyValStr v)))

/-- The emissions_factors section (lines 103-130): skipped when falsy; a
non-dict value is an error; everything inside is warnings. -/
def emissionsFactorsSection (ef : PyVal) : List String × List String :=
  if ¬ truthy ef then ([], [])
  else
    match ef with
    | .dict entries =>
        ([], entries.flatMap (fun ckv =>
          match ckv.2 with
          | .dict vehicles =>
              vehicles.flatMap (fun vkv =>
                match vkv.2 with
                | .dict em =>
                    if ¬ (dictContains em "lifecycle" ∧ dictContains em "tailpipe") then
                      ["Missing emissions data for " ++ vkv.1]
                    else
                      let lifecycle := dictGetD em "lifecycle" (.int 0)
                      let tailpipe := dictGetD em "tailpipe" (.int 0)
                      if ¬ (isNum lifecycle ∧ isNum tailpipe) then
                        ["Invalid emissions values for " ++ vkv.1]
                      else if numVal lifecycle < numVal tailpipe then
                        ["Lifecycle emissions should be >= tailpipe for " ++ vkv.1]
                      else if numVal lifecycle > 2 then
                        ["Very high lifecycle emissions for " ++ vkv.1 ++ ": " ++
                          pyValStr lifecycle]
                      else []
                | _ => ["Invalid emissions data for " ++ vkv.1])
          | _ => ["Invalid emissions data for " ++ ckv.1]))
    | _ => (["Emissions factors must be a dictionary"], [])

/-- The usage_patterns section (lines 132-149): warnings only. -/
def usagePatternsSection (up : PyVal) : List String :=
  if ¬ truthy up then []
  else
    match up with
    | .dict entries =>
        entries.flatMap (fun ckv =>
          match ckv.2 with
          | .dict vehicles =>
              vehicles.flatMap (fun vkv =>
                if ¬ isNum vkv.2 then ["Invalid usage value for " ++ vkv.1]
                else if numVal vkv.2 < 0 then ["Negative usage value for " ++ vkv.1]
                else if numVal vkv.2 > 100000 then
                  ["Very high usage value for " ++ vkv.1 ++ ": " ++ pyValStr vkv.2]
                else [])
          | _ => ["Invalid usage data for " ++ ckv.1])
    | _ => ["Usage patterns must be a dictionary"]

/-- The enable_constraints check (lines 151-154). -/
def enableConstraintsWarnings (ec : PyVal) : List String :=
  match ec with
  | .bool _ => []
  | _ => ["Enable constraints should be a boolean value"]

/-- The trailing suggestion block (lines 156-164), which evaluates
dynamic comparisons and len with Python short-circuiting; a mistyped
operand raises TypeError. -/
def finalSuggestions (years target max_change : PyVal)
    (errors warnings : List String) : Except String (List String) := do
  let s1 :=
    if warnings.isEmpty ∧ errors.isEmpty then ["Scenario parameters look good!"] else []
  let c1 ←
    match pyGt target 0.5 with
    | some b => pure b
    | none => throw "TypeError: unsupported operand comparison"
  let c1full ←
    if c1 then
      match pyLt max_change 0.15 with
      | some b => pure b
      | none => throw "TypeError: unsupported operand comparison"
    else pure false
  let s2 :=
    if c1full then ["Consider increasing max annual change to meet high reduction target"]
    else []
  let lenYears ←
    match pyLen years with
    | some n => pure n
    | none => throw "TypeError: object has no length"
  let c2 ←
    if lenYears > 5 then
      match pyGt max_change 0.15 with
      | some b => pure b
      | none => throw "TypeError: unsupported operand comparison"
    else pure false
  let s3 :=
    if c2 then ["High change rate over many years - consider intermediate targets"] else []
  pure (s1 ++ s2 ++ s3)

/-- validate_scenario_parameters: sections in source order, accumulated
errors/warnings/suggestions in append order, valid iff no errors. -/
def validate_scenario_parameters (parameters : List (String × PyVal)) :
    Except String ValidationResult := do
  let missing := missingKeyErrors parameters
  if ¬ missing.isEmpty then
    return { valid := false, errors := missing, warnings := [], suggestions := [] }
  let years := dictGetD parameters "years" (.list [])
  let (yearsErrs, yearsWarns) := yearsSection years
  let target := dictGetD parameters "target_emissions_reduction" (.int 0)
  let (targetErrs, targetWarns, targetSuggs) := targetSection target
  let max_change := dictGetD parameters "max_annual_change" (.int 0)
  let (mcErrs, mcWarns, mcSuggs) := maxChangeSection max_change
  let vehicle_types := dictGetD parameters "vehicle_types" (.list [])
  let (vtErrs, vtWarns, vtSuggs) := vehicleTypesSection vehicle_types
  let unknownWarns ← unknownTypeWarnings vehicle_types
  let (efErrs, efWarns) := emissionsFactorsSection
    (dictGetD parameters "emissions_factors" (.dict []))
  let upWarns := usagePatternsSection (dictGetD parameters "usage_patterns" (.dict []))
  let ecWarns := enableConstraintsWarnings
    (dictGetD parameters "enable_constraints" (.bool true))
  let errors := yearsErrs ++ targetErrs ++ mcErrs ++ vtErrs ++ efErrs
  let warnings := yearsWarns ++ targetWarns ++ mcWarns ++ vtWarns ++ unknownWarns ++
    efWarns ++ upWarns ++ ecWarns
  let suggestions := targetSuggs ++ mcSuggs ++ vtSuggs
  let finalSuggs ← finalSuggestions years target max_change errors warnings
  pure { valid := errors.isEmpty,
         errors := errors,
         warnings := warnings,
         suggestions := suggestions ++ finalSuggs }

/-- The valid field of a validation run; an uncaught exception yields no
result at all (modelled false here only for convenient statement of
results on well-typed inputs). -/
def validationValid (r : Except String ValidationResult) : Bool :=
  match r with
  | .ok v => v.valid
  | .error _ => false

/-- The warnings of a validation run. -/
def validationWarnings (r : Except String ValidationResult) : List String :=
  match r with
  | .ok v => v.warnings
  | .error _ => []

/-! ## Spec-side formulas (for refinement comparison)

These two definitions follow the wording of the specification, to be
compared with the source-derived calculate_adoption_rates. -/

/-- The claimed adoption formula, written from the spec text: Electric
min(0.95, base*(1+3f)); Hybrid min(0.8, base*(1+2f)*(1-0.5f)); other
max(0.05, base*(1-2f)). -/
def adoptionRateSpec (base_rate f : ℚ) (technology : String) : ℚ :=
  if technology = "Electric" then min 0.95 (base_rate * (1 + 3 * f))
  else if technology = "Hybrid" then min 0.8 (base_rate * (1 + 2 * f) * (1 - 0.5 * f))
  else max 0.05 (base_rate * (1 - 2 * f))

/-- The claimed base rate: adoption_rates[vehicle_type][technology] with
default 0.1 when absent. -/
def baseRateSpec (sd : ScenarioData) (vt technology : String) : ℚ :=
  alistGetD (alistGetD sd.adoption_rates vt []) technology 0.1

/-! ## Concrete instances used by witnesses and counterexamples -/

/-- Assignment for the C1 counterexample: three years, one vehicle type,
flat vector (0.1, 0.2, 0), all entries inside the box bounds. -/
def c1x : ℕ → ℚ :=
  fun k => if k = 0 then 0.1 else if k = 1 then 0.2 else 0

/-- A solver stub that always reports failure. -/
def c2solve : List OptConstraint → MinimizeResult :=
  fun _ => ⟨false, "Iteration limit reached", [0, 0], 1000, 2000, 0⟩

/-- A well-formed optimizer input: two years, one vehicle type,
constraints enabled. -/
def c2data : OptimizeData :=
  ⟨[2025, 2030], ["Passenger Cars"], 0.1, true⟩

/-- A small concrete calculations record. -/
def c3calcs : Calculations where
  emissions := ⟨120, [("Electric", 120)], [("car_0", 120)]⟩
  cost := ⟨10, 20, 30, [], []⟩
  energy := ⟨50, [], []⟩
  infrastructure := ⟨0, 0, 0, 0⟩
  health_impact := ⟨100, 0, 0⟩
  economic_impact := ⟨0, 0, 0, 0⟩

/-- A concrete per-vehicle-type result for the aggregation witness. -/
def c3vtr : VehicleTypeResult where
  vehicle_type := "Passenger Cars"
  year := 2025
  vehicle_data := []
  adoption_rates := []
  calculations := c3calcs
  constraint_compliance := ⟨true, [], []⟩

/-- A concrete engine-shaped year entry whose aggregated_metrics is the
aggregate_by_year rollup of its vehicle calculations. -/
def c3year : YearResults where
  year := 2025
  vehicle_calculations := [("Passenger Cars", c3vtr)]
  aggregated_metrics := aggregate_by_year 2025 [("Passenger Cars", c3vtr)]

/-- A concrete results structure; Buses is listed in vehicle_types but
absent from the only year. -/
def c3results : EngineResults where
  vehicle_types := ["Passenger Cars", "Buses"]
  per_year_results := [(2025, c3year)]

/-- A constraints dict activating one recognized evaluator and carrying
one unknown key. -/
def c4constraints : List (String × PyVal) :=
  [("technology_readiness", .dict []), ("unknown_key", .int 5)]

/-- A per-vehicle-type result whose compliance was produced by
check_vehicle_constraints, as in the engine. -/
def c4vtr : VehicleTypeResult where
  vehicle_type := "Passenger Cars"
  year := 2025
  vehicle_data := []
  adoption_rates := []
  calculations := c3calcs
  constraint_compliance :=
    check_vehicle_constraints "Passenger Cars" 2025 c3calcs c4constraints

/-- A concrete engine-shaped results structure for the constraint
analysis witness. -/
def c4results : EngineResults where
  vehicle_types := ["Passenger Cars"]
  per_year_results :=
    [(2025, { year := 2025,
              vehicle_calculations := [("Passenger Cars", c4vtr)],
              aggregated_metrics := aggregate_by_year 2025 [("Passenger Cars", c4vtr)] })]

/-- An otherwise-valid parameters dict with a caller-chosen vehicle_types
list. -/
def goodParams (vts : List String) : List (String × PyVal) :=
  [("years", .list [.int 2025, .int 2030]),
   ("target_emissions_reduction", .float 0.5),
   ("max_annual_change", .float 0.1),
   ("vehicle_types", .list (vts.map PyVal.str))]

/-- The warnings produced by the unknown-vehicle-type loop on a list of
type-name strings. -/
def unknownWarnList (vts : List String) : List String :=
  vts.filterMap (fun vt =>
    if pyInCategories (.str vt) then none
    else some ("Unknown vehicle type: " ++ vt))

/-- Eleven vehicle type names, none of them a recognized category. -/
def c5vts : List String :=
  ["Unrecognized A", "Unrecognized B", "Unrecognized C", "Unrecognized D",
   "Unrecognized E", "Unrecognized F", "Unrecognized G", "Unrecognized H",
   "Unrecognized I", "Unrecognized J", "Unrecognized K"]

/-- A roster vehicle with fuel_efficiency = 0 (malformed input). -/
def c6vehicle : VehicleData :=
  { mkDemoCar 2 with fuel_efficiency := 0 }

/-- First cached calculation for scenario_A (older timestamp). -/
def c7r1 : CachedResult := ⟨"scenario_A", "2024-01-01T00:00:00"⟩

/-- Second cached calculation for scenario_A (more recent timestamp). -/
def c7r2 : CachedResult := ⟨"scenario_A", "2024-06-01T00:00:00"⟩

/-- Cache state after storing the two calculations in chronological
order. -/
def c7cache : EngineState :=
  cache_results (cache_results ⟨[]⟩ c7r1) c7r2

/-! ## Theorems -/

/-- C1: the claim states that with enable_constraints the solver receives
an upper and a lower rate-of-change inequality for every pair of adjacent
years and every vehicle type, so that any solution satisfying the
constraint set obeys the bound on every adjacent pair.  The generated
constraint set refutes this: with three years and one vehicle type
(flat indices 0, 1, 2), the loop constrains the index pairs (0, 2),
(2, 0) (a wrap-around of the numpy index -1 to the last year), and
(1, 0), (0, 1); no constraint mentions the adjacent pair (1, 2), and the
concrete in-bounds assignment c1x = (0.1, 0.2, 0) satisfies every
generated constraint with max_annual_change = 0.1 while violating
the claimed bound |x[2] - x[1]| <= 0.1 on the final adjacent pair. -/
theorem c1_rate_constraints_skip_last_adjacent_pair :
    (∀ c ∈ rate_constraints 3 1, rcSat 0.1 c1x c) ∧
    ¬ |c1x 2 - c1x 1| ≤ 0.1 ∧
    (∀ k, k < 3 → 0 ≤ c1x k ∧ c1x k ≤ 1) ∧
    RateConstraint.mk 0 2 ∈ rate_constraints 3 1 ∧
    (∀ c ∈ rate_constraints 3 1, ¬ (c.hi = 2 ∧ c.lo = 1) ∧ ¬ (c.hi = 1 ∧ c.lo = 2)) := by
  have hlist : rate_constraints 3 1 = [⟨0, 2⟩, ⟨2, 0⟩, ⟨1, 0⟩, ⟨0, 1⟩] := by rfl
  refine ⟨?_, ?_, ?_, ?_, ?_⟩
  · rw [hlist]
    intro c hc
    simp only [List.mem_cons, List.not_mem_nil, or_false] at hc
    rcases hc with h | h | h | h <;> subst h <;> norm_num [rcSat, c1x]
  · norm_num [c1x, abs_of_nonneg]
  · intro k hk
    interval_cases k <;> norm_num [c1x]
  · rw [hlist]; simp
  · rw [hlist]; decide

/-- C2: whenever the SLSQP solve over the full constraint set reports
failure, optimize_transport_pathway retries exactly once with only the
target constraint (relaxed_constraints = [constraints[0]]); if the retry
also fails the returned dictionary has success = false and carries the
solver message, and no exception reaches the caller (the try/except
wrapper makes the function total). -/
theorem c2_solver_fallback (solve : List OptConstraint → MinimizeResult)
    (data : OptimizeData) (hyears : 2 ≤ data.years.length)
    (hveh : data.vehicle_types ≠ [])
    (hfail : (solve (optimizer_constraints data.enable_constraints
      data.years.length data.vehicle_types.length)).success = false) :
    solver_invocations solve data =
      [optimizer_constraints data.enable_constraints data.years.length
        data.vehicle_types.length, [OptConstraint.target]] ∧
    optimize_transport_pathway solve data =
      .result (solve [OptConstraint.target]).success
        (solve [OptConstraint.target]).message
        (reshape data.vehicle_types.length (solve [OptConstraint.target]).x)
        (solve [OptConstraint.target]).nit
        (solve [OptConstraint.target]).nfev
        (solve [OptConstraint.target]).fval ∧
    ((solve [OptConstraint.target]).success = false →
      (optimize_transport_pathway solve data).successOf = false ∧
      (optimize_transport_pathway solve data).messageOf =
        (solve [OptConstraint.target]).message) := by
  have hlen : ¬ data.years.length < 2 := by omega
  have hne : ¬ data.vehicle_types.isEmpty := by
    simpa [List.isEmpty_iff] using hveh
  have htake : (optimizer_constraints data.enable_constraints
      data.years.length data.vehicle_types.length).take 1 = [OptConstraint.target] := by
    unfold optimizer_constraints
    simp
  have hbody : optimize_body solve data =
      .ok (.result (solve [OptConstraint.target]).success
        (solve [OptConstraint.target]).message
        (reshape data.vehicle_types.length (solve [OptConstraint.target]).x)
        (solve [OptConstraint.target]).nit
        (solve [OptConstraint.target]).nfev
        (solve [OptConstraint.target]).fval) := by
    unfold optimize_body
    simp only [hlen, hne, hfail, htake, if_false, ite_false, Bool.false_eq_true,
      not_false_eq_true, if_true, ite_true]
    rfl
  refine ⟨?_, ?_, ?_⟩
  · unfold solver_invocations
    simp [hlen, hne, hfail, htake]
  · unfold optimize_transport_pathway
    rw [hbody]
  · intro hretry
    unfold optimize_transport_pathway
    rw [hbody]
    exact ⟨hretry, rfl⟩

/-- C2 witness: a concrete always-failing solver on a two-year, one-type
input; the fallback result is returned with success = false and the
solver message. -/
theorem c2_solver_fallback_witness :
    (optimize_transport_pathway c2solve c2data).successOf = false ∧
    (optimize_transport_pathway c2solve c2data).messageOf = "Iteration limit reached" := by
  have h := c2_solver_fallback c2solve c2data (by decide) (by decide) (by decide)
  exact h.2.2 (by decide)

/-- The year-aggregation fold adds exactly the per-entry emissions
totals. -/
theorem aggFoldl_emissions (l : List (String × VehicleTypeResult)) :
    ∀ agg : YearAggregate, (l.foldl aggStep agg).total_emissions =
      agg.total_emissions +
        (l.map (fun kv => kv.2.calculations.emissions.total_emissions)).sum := by
  induction l with
  | nil => intro agg; simp
  | cons hd tl ih =>
      intro agg
      simp only [List.foldl_cons, List.map_cons, List.sum_cons, ih, aggStep]
      ring

/-- The year-aggregation fold adds exactly the per-entry cost totals. -/
theorem aggFoldl_cost (l : List (String × VehicleTypeResult)) :
    ∀ agg : YearAggregate, (l.foldl aggStep agg).total_cost =
      agg.total_cost + (l.map (fun kv => kv.2.calculations.cost.total_cost)).sum := by
  induction l with
  | nil => intro agg; simp
  | cons hd tl ih =>
      intro agg
      simp only [List.foldl_cons, List.map_cons, List.sum_cons, ih, aggStep]
      ring

/-- The vehicle-type totals fold adds the emissions contribution of each
year: the year value when the type is present, zero when absent. -/
theorem vtTotalsFoldl_emissions (vt : String) (l : List (ℤ × YearResults)) :
    ∀ acc : VehicleTypeTotals, (l.foldl (vtTotalsStep vt) acc).total_emissions =
      acc.total_emissions + (l.map (fun p =>
        match alistGet p.2.vehicle_calculations vt with
        | some vd => vd.calculations.emissions.total_emissions
        | none => 0)).sum := by
  induction l with
  | nil => intro acc; simp
  | cons hd tl ih =>
      intro acc
      simp only [List.foldl_cons, List.map_cons, List.sum_cons, ih, vtTotalsStep]
      rcases h : alistGet hd.2.vehicle_calculations vt with _ | vd <;> (simp [h]; try ring_nf)

/-- The vehicle-type totals fold adds the cost contribution of each
year. -/
theorem vtTotalsFoldl_cost (vt : String) (l : List (ℤ × YearResults)) :
    ∀ acc : VehicleTypeTotals, (l.foldl (vtTotalsStep vt) acc).total_cost =
      acc.total_cost + (l.map (fun p =>
        match alistGet p.2.vehicle_calculations vt with
        | some vd => vd.calculations.cost.total_cost
        | none => 0)).sum := by
  induction l with
  | nil => intro acc; simp
  | cons hd tl ih =>
      intro acc
      simp only [List.foldl_cons, List.map_cons, List.sum_cons, ih, vtTotalsStep]
      rcases h : alistGet hd.2.vehicle_calculations vt with _ | vd <;> (simp [h]; try ring_nf)

/-- C3: on every engine-produced results structure (aggregated_metrics
assigned from aggregate_by_year, as in _calculate_year), the
comprehensive rollup is exactly additive: scenario_summary totals equal
the sum of the yearly_totals entries for emissions and cost; each yearly
total is the sum over exactly the vehicle types present in the
vehicle_calculations of that year (an absent type contributes zero); and
the scenario total of each vehicle type sums its per-year contributions
with zero for the years it is absent from. -/
theorem c3_comprehensive_aggregation_additive (results : EngineResults)
    (hagg : ∀ p ∈ results.per_year_results,
      p.2.aggregated_metrics = aggregate_by_year p.2.year p.2.vehicle_calculations) :
    ((perform_comprehensive_aggregation results).scenario_summary.total_emissions =
      (((perform_comprehensive_aggregation results).yearly_totals).map
        (fun q => q.2.total_emissions)).sum) ∧
    ((perform_comprehensive_aggregation results).scenario_summary.total_cost =
      (((perform_comprehensive_aggregation results).yearly_totals).map
        (fun q => q.2.total_cost)).sum) ∧
    (∀ p ∈ results.per_year_results,
      p.2.aggregated_metrics.total_emissions =
        (p.2.vehicle_calculations.map
          (fun kv => kv.2.calculations.emissions.total_emissions)).sum ∧
      p.2.aggregated_metrics.total_cost =
        (p.2.vehicle_calculations.map (fun kv => kv.2.calculations.cost.total_cost)).sum) ∧
    (∀ vt : String,
      (vehicleTypeTotalFor results vt).total_emissions =
        (results.per_year_results.map (fun p =>
          match alistGet p.2.vehicle_calculations vt with
          | some vd => vd.calculations.emissions.total_emissions
          | none => 0)).sum ∧
      (vehicleTypeTotalFor results vt).total_cost =
        (results.per_year_results.map (fun p =>
          match alistGet p.2.vehicle_calculations vt with
          | some vd => vd.calculations.cost.total_cost
          | none => 0)).sum) ∧
    ((perform_comprehensive_aggregation results).vehicle_type_totals =
      results.vehicle_types.map (fun vt => (vt, vehicleTypeTotalFor results vt))) := by
  refine ⟨?_, ?_, ?_, ?_, rfl⟩
  · simp [perform_comprehensive_aggregation, List.map_map]
    rfl
  · simp [perform_comprehensive_aggregation, List.map_map]
    rfl
  · intro p hp
    rw [hagg p hp]
    unfold aggregate_by_year
    constructor
    · rw [aggFoldl_emissions]; simp
    · rw [aggFoldl_cost]; simp
  · intro vt
    unfold vehicleTypeTotalFor
    constructor
    · rw [vtTotalsFoldl_emissions]; simp
    · rw [vtTotalsFoldl_cost]; simp

/-- C3 witness: the additivity and the zero contribution of the absent
Buses type on a concrete engine-shaped results structure. -/
theorem c3_comprehensive_aggregation_additive_witness :
    ((perform_comprehensive_aggregation c3results).scenario_summary.total_emissions =
      (((perform_comprehensive_aggregation c3results).yearly_totals).map
        (fun q => q.2.total_emissions)).sum) ∧
    ((vehicleTypeTotalFor c3results "Buses").total_emissions =
      (c3results.per_year_results.map (fun p =>
        match alistGet p.2.vehicle_calculations "Buses" with
        | some vd => vd.calculations.emissions.total_emissions
        | none => 0)).sum) := by
  have h := c3_comprehensive_aggregation_additive c3results (by
    intro p hp
    simp only [c3results, List.mem_singleton] at hp
    subst hp
    rfl)
  exact ⟨h.1, (h.2.2.2.1 "Buses").1⟩

/-- A loop step of check_vehicle_constraints is the identity whenever the
evaluator returns the clean compliance record. -/
theorem checkStep_of_clean (vt : String) (year : ℤ) (calcs : Calculations)
    (cs : List (String × PyVal)) (comp : Compliance) (entry : String × CheckerFun)
    (hf : ∀ a b c d, entry.2 a b c d = ⟨true, [], []⟩) :
    checkStep vt year calcs cs comp entry = comp := by
  obtain ⟨cc, cv, cw⟩ := comp
  unfold checkStep
  rw [hf]
  simp

/-- check_vehicle_constraints returns the clean compliance record on
every input, because the five registered evaluators all do. -/
theorem check_vehicle_constraints_eq_clean (vt : String) (year : ℤ)
    (calcs : Calculations) (cs : List (String × PyVal)) :
    check_vehicle_constraints vt year calcs cs = ⟨true, [], []⟩ := by
  unfold check_vehicle_constraints constraint_types
  simp only [List.foldl_cons, List.foldl_nil]
  rw [checkStep_of_clean _ _ _ _ _ _ (fun a b c d => rfl),
    checkStep_of_clean _ _ _ _ _ _ (fun a b c d => rfl),
    checkStep_of_clean _ _ _ _ _ _ (fun a b c d => rfl),
    checkStep_of_clean _ _ _ _ _ _ (fun a b c d => rfl),
    checkStep_of_clean _ _ _ _ _ _ (fun a b c d => rfl)]

/-- The inner analyze loop leaves the analysis unchanged when every cell
of the year is compliant. -/
theorem analyzeLoopVt_clean (year : ℤ) (analysis : ConstraintAnalysis)
    (l : List (String × VehicleTypeResult))
    (h : ∀ q ∈ l, q.2.constraint_compliance.compliant = true) :
    analyzeLoopVt year analysis l = analysis := by
  induction l generalizing analysis with
  | nil => rfl
  | cons hd tl ih =>
      obtain ⟨vt, vd⟩ := hd
      have hc : vd.constraint_compliance.compliant = true :=
        h (vt, vd) (List.mem_cons_self _ _)
      unfold analyzeLoopVt
      rw [if_neg (by simp [hc])]
      exact ih analysis (fun q hq => h q (List.mem_cons_of_mem _ hq))

/-- The analyze fold leaves the analysis unchanged when every cell of
every year is compliant. -/
theorem analyzeFold_clean (l : List (ℤ × YearResults)) (analysis : ConstraintAnalysis)
    (h : ∀ p ∈ l, ∀ q ∈ p.2.vehicle_calculations,
      q.2.constraint_compliance.compliant = true) :
    l.foldl (fun analysis p => analyzeLoopVt p.1 analysis p.2.vehicle_calculations)
      analysis = analysis := by
  induction l generalizing analysis with
  | nil => rfl
  | cons hd tl ih =>
      rw [List.foldl_cons,
        analyzeLoopVt_clean _ _ _ (h hd (List.mem_cons_self _ _))]
      exact ih analysis (fun p hp => h p (List.mem_cons_of_mem _ hp))

/-- C4: check_vehicle_constraints returns compliant = true with empty
violation and warning lists on every input, because all five built-in
evaluators unconditionally return the clean record; consequently, on
every engine-produced results structure (whose per-cell compliance comes
from check_vehicle_constraints), analyze_constraints reports
overall_compliance = true with empty constraint_violations and empty
critical_violations. -/
theorem c4_constraints_always_compliant :
    (∀ (vt : String) (year : ℤ) (calcs : Calculations) (cs : List (String × PyVal)),
      check_vehicle_constraints vt year calcs cs = ⟨true, [], []⟩) ∧
    (∀ (results : EngineResults) (cs : List (String × PyVal)),
      (∀ p ∈ results.per_year_results, ∀ q ∈ p.2.vehicle_calculations,
        q.2.constraint_compliance =
          check_vehicle_constraints q.2.vehicle_type q.2.year q.2.calculations cs) →
      analyze_constraints results cs = ⟨true, [], [], []⟩) := by
  refine ⟨check_vehicle_constraints_eq_clean, ?_⟩
  intro results cs h
  unfold analyze_constraints
  apply analyzeFold_clean
  intro p hp q hq
  rw [h p hp q hq, check_vehicle_constraints_eq_clean]

/-- C4 witness: on a concrete engine-shaped results structure with an
active recognized constraint and an unknown key, the compliance record is
clean and the scenario-level analysis is clean. -/
theorem c4_constraints_always_compliant_witness :
    analyze_constraints c4results c4constraints = ⟨true, [], [], []⟩ ∧
    check_vehicle_constraints "Passenger Cars" 2025 c3calcs c4constraints =
      ⟨true, [], []⟩ := by
  have h := c4_constraints_always_compliant
  refine ⟨h.2 c4results c4constraints ?_, h.1 "Passenger Cars" 2025 c3calcs c4constraints⟩
  intro p hp q hq
  simp only [c4results, List.mem_singleton] at hp
  subst hp
  simp only [List.mem_singleton] at hq
  subst hq
  rfl

/-- The target section accepts 0.5 without errors, warnings or
suggestions. -/
theorem targetSection_half : targetSection (.float 0.5) = ([], [], []) := by
  norm_num [targetSection, isNum, numVal]

/-- The max-annual-change section accepts 0.1 without errors, warnings or
suggestions. -/
theorem maxChangeSection_tenth : maxChangeSection (.float 0.1) = ([], [], []) := by
  norm_num [maxChangeSection, isNum, numVal]

/-- The trailing suggestion block on the well-typed goodParams values
never raises and appends only the looks-good suggestion, exactly when no
warnings and no errors accumulated. -/
theorem finalSuggestions_goodParams (es ws : List String) :
    finalSuggestions (.list [.int 2025, .int 2030]) (.float 0.5) (.float 0.1) es ws =
      Except.ok (if ws.isEmpty ∧ es.isEmpty then ["Scenario parameters look good!"] else []) := by
  have h1 : ¬ ((0.5 : ℚ) < 0.5) := by norm_num
  unfold finalSuggestions pyGt pyLt pyLen isNum numVal
  simp [h1]
  rfl

/-- The vehicle-types section never produces an error on a non-empty
list, whatever its length or content. -/
theorem vehicleTypesSection_errors (vts : List String) (hne : vts ≠ []) :
    (vehicleTypesSection (.list (vts.map PyVal.str))).1 = [] := by
  have hx : (vts.map PyVal.str).isEmpty = false := by
    simp [hne]
  unfold vehicleTypesSection
  simp only [hx, Bool.false_eq_true, if_false]
  split <;> rfl

/-- The unknown-type loop on a list of strings returns (never raises) the
per-entry warning list. -/
theorem unknownTypeWarnings_strs (vts : List String) :
    unknownTypeWarnings (.list (vts.map PyVal.str)) = Except.ok (unknownWarnList vts) := by
  unfold unknownTypeWarnings pyIter unknownWarnList
  simp [List.filterMap_map, Function.comp_def, pyValStr]
  rfl

/-- Full evaluation of validate_scenario_parameters on goodParams: for
every non-empty vehicle-type list the run is exception-free, valid is
true, errors are empty, and the warnings are exactly the length warning
(when more than 10 entries) followed by the unknown-type warnings. -/
theorem validate_goodParams_eval (vts : List String) (hne : vts ≠ []) :
    validate_scenario_parameters (goodParams vts) =
      Except.ok
        { valid := true,
          errors := [],
          warnings := (vehicleTypesSection (.list (vts.map PyVal.str))).2.1 ++
            unknownWarnList vts,
          suggestions := (vehicleTypesSection (.list (vts.map PyVal.str))).2.2 ++
            (if ((vehicleTypesSection (.list (vts.map PyVal.str))).2.1 ++
                unknownWarnList vts).isEmpty then
              ["Scenario parameters look good!"]
            else []) } := by
  have hvt3 : vehicleTypesSection (.list (vts.map PyVal.str)) =
      ([], (vehicleTypesSection (.list (vts.map PyVal.str))).2.1,
        (vehicleTypesSection (.list (vts.map PyVal.str))).2.2) := by
    conv_lhs => rw [show vehicleTypesSection (.list (vts.map PyVal.str)) =
      ((vehicleTypesSection (.list (vts.map PyVal.str))).1,
        (vehicleTypesSection (.list (vts.map PyVal.str))).2.1,
        (vehicleTypesSection (.list (vts.map PyVal.str))).2.2) from rfl]
    rw [vehicleTypesSection_errors vts hne]
  have hd1 : dictGetD (goodParams vts) "years" (.list []) =
    .list [.int 2025, .int 2030] := rfl
  have hd2 : dictGetD (goodParams vts) "target_emissions_reduction" (.int 0) =
    .float 0.5 := rfl
  have hd3 : dictGetD (goodParams vts) "max_annual_change" (.int 0) = .float 0.1 := rfl
  have hd4 : dictGetD (goodParams vts) "vehicle_types" (.list []) =
    .list (vts.map PyVal.str) := rfl
  have hd5 : dictGetD (goodParams vts) "emissions_factors" (.dict []) = .dict [] := rfl
  have hd6 : dictGetD (goodParams vts) "usage_patterns" (.dict []) = .dict [] := rfl
  have hd7 : dictGetD (goodParams vts) "enable_constraints" (.bool true) = .bool true := rfl
  have hmiss : missingKeyErrors (goodParams vts) = [] := rfl
  have hyrs : yearsSection (.list [.int 2025, .int 2030]) = ([], []) := rfl
  have hef : emissionsFactorsSection (.dict []) = ([], []) := rfl
  have hup : usagePatternsSection (.dict []) = [] := rfl
  have hec : enableConstraintsWarnings (.bool true) = [] := rfl
  unfold validate_scenario_parameters
  rw [hmiss, hd1, hd2, hd3, hd4, hd5, hd6, hd7]
  simp only [hyrs, targetSection_half, maxChangeSection_tenth, hef, hup, hec,
    unknownTypeWarnings_strs, finalSuggestions_goodParams, List.append_nil,
    List.nil_append, List.isEmpty_nil, and_true]
  conv_lhs => rw [hvt3]
  simp
  rfl

/-- C5 counterexample: on an otherwise-valid parameters dict whose
vehicle_types has eleven entries, none of them a recognized category,
validate_scenario_parameters returns valid = true; the claim says both
the unrecognized entries and the more-than-ten length force
valid = false. -/
theorem c5_counterexample :
    validationValid (validate_scenario_parameters (goodParams c5vts)) = true ∧
    10 < c5vts.length ∧
    (∀ vt ∈ c5vts, vt ∉ valid_categories) := by
  refine ⟨?_, by decide, by decide⟩
  rw [validate_goodParams_eval c5vts (by decide)]
  rfl

/-- C5 amended: unrecognized vehicle_types entries and more than ten
entries are surfaced as warnings, not errors: with the other parameters
valid, any non-empty list of vehicle-type strings yields valid = true,
and each unrecognized entry contributes an Unknown-vehicle-type warning.
valid = false does arise from an empty or non-list vehicle_types value. -/
theorem c5_amended (vts : List String) (hne : vts ≠ []) :
    validationValid (validate_scenario_parameters (goodParams vts)) = true ∧
    (∀ vt ∈ vts, vt ∉ valid_categories →
      ("Unknown vehicle type: " ++ vt) ∈
        validationWarnings (validate_scenario_parameters (goodParams vts))) := by
  rw [validate_goodParams_eval vts hne]
  constructor
  · rfl
  · intro vt hmem hnc
    simp only [validationWarnings]
    refine List.mem_append.mpr (Or.inr ?_)
    unfold unknownWarnList
    refine List.mem_filterMap.mpr ⟨vt, hmem, ?_⟩
    have hpc : pyInCategories (.str vt) = false := by
      simp only [pyInCategories, pyEqStr, List.any_eq_false]
      intro s hs
      intro heq
      rw [beq_iff_eq] at heq
      exact hnc (heq ▸ hs)
    rw [hpc]
    simp

/-- C5 amended witness: the concrete eleven-entry unrecognized list is
accepted as valid and its first entry produces the unknown-type
warning. -/
theorem c5_amended_witness :
    validationValid (validate_scenario_parameters (goodParams c5vts)) = true ∧
    "Unknown vehicle type: Unrecognized A" ∈
      validationWarnings (validate_scenario_parameters (goodParams c5vts)) := by
  have h := c5_amended c5vts (by decide)
  exact ⟨h.1, h.2 "Unrecognized A" (by decide) (by decide)⟩

/-- The energy accumulation loop raises (returns an error) whenever some
roster vehicle has fuel_efficiency = 0. -/
theorem energyLoop_error (rates : List (String × ℚ)) (l : List (String × VehicleData)) :
    ∀ (tot : ℚ) (byFuel : List (String × ℚ)),
      (∃ kv ∈ l, kv.2.fuel_efficiency = 0) →
      ∃ msg, energyLoop rates l tot byFuel = Except.error msg := by
  induction l with
  | nil =>
      intro tot byFuel h
      simp at h
  | cons hd tl ih =>
      obtain ⟨vid, v⟩ := hd
      intro tot byFuel h
      by_cases hz : v.fuel_efficiency = 0
      · refine ⟨"ZeroDivisionError: float division by zero", ?_⟩
        unfold energyLoop
        rw [show pyDiv v.annual_mileage v.fuel_efficiency =
          Except.error "ZeroDivisionError: float division by zero" from by
            unfold pyDiv; rw [if_pos hz]; rfl]
        rfl
      · have htl : ∃ kv ∈ tl, kv.2.fuel_efficiency = 0 := by
          rcases h with ⟨kv, hkv, hkz⟩
          rcases List.mem_cons.mp hkv with heq | hmem
          · rw [heq] at hkz
            exact absurd hkz hz
          · exact ⟨kv, hmem, hkz⟩
        obtain ⟨msg, hmsg⟩ := ih
          (tot + alistGetD rates vid 0 * (v.annual_mileage / v.fuel_efficiency) *
            energy_factor v.fuel_type)
          (alistAdd byFuel v.fuel_type
            (alistGetD rates vid 0 * (v.annual_mileage / v.fuel_efficiency) *
              energy_factor v.fuel_type)) htl
        refine ⟨msg, ?_⟩
        unfold energyLoop
        rw [show pyDiv v.annual_mileage v.fuel_efficiency =
          Except.ok (v.annual_mileage / v.fuel_efficiency) from by
            unfold pyDiv; rw [if_neg hz]; rfl]
        exact hmsg

/-- C6 amended: the division annual_mileage / fuel_efficiency in the
energy-consumption calculation is not guarded: for every roster
containing a vehicle with fuel_efficiency = 0,
_calculate_energy_consumption raises ZeroDivisionError (no data-quality
warning is recorded, the vehicle is not excluded), and the exception
propagates out of the calculation; only the top-level try/except of
calculate_scenario converts it into a success = false result, aborting
the whole scenario calculation. -/
theorem c6_amended (vehicle_data : List (String × VehicleData))
    (rates : List (String × ℚ)) (year : ℤ)
    (h : ∃ kv ∈ vehicle_data, kv.2.fuel_efficiency = 0) :
    ∃ msg, calculate_energy_consumption vehicle_data rates year = Except.error msg := by
  obtain ⟨msg, hmsg⟩ := energyLoop_error rates vehicle_data 0 [] h
  refine ⟨msg, ?_⟩
  unfold calculate_energy_consumption
  rw [hmsg]
  rfl

/-- C6 counterexample: on a concrete one-vehicle roster with
fuel_efficiency = 0 the energy calculation returns the raised
ZeroDivisionError rather than a guarded warning result. -/
theorem c6_counterexample :
    calculate_energy_consumption [("car_2", c6vehicle)] [("car_2", 0.5)] 2025 =
      Except.error "ZeroDivisionError: float division by zero" := by
  have hz : c6vehicle.fuel_efficiency = 0 := rfl
  unfold calculate_energy_consumption energyLoop
  rw [show pyDiv c6vehicle.annual_mileage c6vehicle.fuel_efficiency =
    Except.error "ZeroDivisionError: float division by zero" from by
      unfold pyDiv; rw [if_pos hz]; rfl]
  rfl

/-- C6 amended witness: a two-vehicle roster whose second vehicle has
fuel_efficiency = 0 makes the energy calculation raise. -/
theorem c6_amended_witness :
    ∃ msg, calculate_energy_consumption
      [("bus_0", mkDemoBus 0), ("bad", c6vehicle)] [] 2030 = Except.error msg :=
  c6_amended [("bus_0", mkDemoBus 0), ("bad", c6vehicle)] [] 2030
    ⟨("bad", c6vehicle), by simp, rfl⟩

/-- A failed cache scan means no entry matches. -/
theorem findCache_none (l : List (String × CachedResult)) (sid : String)
    (h : l.find? (fun kv => kv.2.scenario_id == sid) = none) :
    ∀ kv ∈ l, kv.2.scenario_id ≠ sid := by
  intro kv hkv
  have := List.find?_eq_none.mp h kv hkv
  simpa using this

/-- A successful cache scan returns the first matching entry in insertion
order: nothing before it matches. -/
theorem findCache_some (l : List (String × CachedResult)) (sid : String)
    (kv0 : String × CachedResult)
    (h : l.find? (fun kv => kv.2.scenario_id == sid) = some kv0) :
    kv0.2.scenario_id = sid ∧
    ∃ pre post, l = pre ++ kv0 :: post ∧ ∀ kv ∈ pre, kv.2.scenario_id ≠ sid := by
  induction l with
  | nil => simp [List.find?] at h
  | cons hd tl ih =>
      rcases hp : (hd.2.scenario_id == sid) with _ | _
      · rw [List.find?_cons, hp] at h
        obtain ⟨h1, pre, post, heq, hpre⟩ := ih h
        refine ⟨h1, hd :: pre, post, by rw [heq]; rfl, ?_⟩
        intro kv hkv
        rcases List.mem_cons.mp hkv with heq2 | hmem
        · subst heq2
          simpa using hp
        · exact hpre kv hmem
      · rw [List.find?_cons, hp] at h
        injection h with h
        subst h
        exact ⟨by simpa using hp, [], tl, rfl, by intro kv hkv; simp at hkv⟩

/-- C7 counterexample: after caching two calculations for scenario_A in
chronological order, get_cached_result returns the first-inserted
(oldest) result, not the most recent one; the two cached results
differ. -/
theorem c7_counterexample :
    get_cached_result c7cache "scenario_A" = some c7r1 ∧
    c7r1 ≠ c7r2 ∧
    c7cache.calculation_cache =
      [("scenario_A_2024-01-01T00:00:00", c7r1),
       ("scenario_A_2024-06-01T00:00:00", c7r2)] :=
  ⟨rfl, by decide, rfl⟩

/-- C7 amended: get_cached_result scans the cache in dict insertion order
and returns the first (oldest-inserted) stored result whose embedded
scenario_id equals the argument; when no entry matches it returns None, a
miss rather than an error. -/
theorem c7_amended (state : EngineState) (sid : String) :
    (get_cached_result state sid = none →
      ∀ kv ∈ state.calculation_cache, kv.2.scenario_id ≠ sid) ∧
    (∀ r, get_cached_result state sid = some r →
      r.scenario_id = sid ∧
      ∃ pre k post, state.calculation_cache = pre ++ (k, r) :: post ∧
        ∀ kv ∈ pre, kv.2.scenario_id ≠ sid) := by
  constructor
  · intro h
    unfold get_cached_result at h
    rw [Option.map_eq_none'] at h
    exact findCache_none _ _ h
  · intro r h
    unfold get_cached_result at h
    rw [Option.map_eq_some'] at h
    obtain ⟨kv0, hfind, hr⟩ := h
    obtain ⟨h1, pre, post, heq, hpre⟩ := findCache_some _ _ _ hfind
    subst hr
    exact ⟨h1, pre, kv0.1, post, by rw [heq], hpre⟩

/-- C7 amended witness: on the concrete two-entry cache the returned
result is the first-inserted match, with nothing before it matching. -/
theorem c7_amended_witness :
    c7r1.scenario_id = "scenario_A" ∧
    ∃ pre k post, c7cache.calculation_cache = pre ++ (k, c7r1) :: post ∧
      ∀ kv ∈ pre, kv.2.scenario_id ≠ "scenario_A" :=
  (c7_amended c7cache "scenario_A").2 c7r1 rfl

/-- C8 counterexample: the engine validation accepts the year list
[2025, 2125] (every year an integer above 2020), yet the year-progression
adjustment at 2125 gives the demo petrol car a negative purchase cost
(25000 * (1 - 3.5 * 0.3) = -1250), refuting the claim that adjusted costs
are never negative for accepted years. -/
theorem c8_counterexample :
    engineYearsOk [2025, 2125] = true ∧
    (adjust_vehicle 2125 (mkDemoCar 2)).purchase_cost < 0 := by
  constructor
  · decide
  · show (mkDemoCar 2).purchase_cost * (1 - year_factor 2125 * 0.3) < 0
    norm_num [mkDemoCar, year_factor]

/-- C8 amended: the adjustment formulas are as claimed (readiness
min(9, base + floor(2 * year_factor)), purchase cost scaled by
1 - 0.3 * year_factor, operating cost by 1 - 0.2 * year_factor),
readiness never exceeds 9, and both costs are non-increasing in the
year; the adjusted costs are nonnegative for accepted years up to 2120,
while later accepted years can make the purchase-cost multiplier
negative (counterexample at 2125). -/
theorem c8_amended (v : VehicleData) (y1 y2 : ℤ) (h1 : 2020 < y1) (h12 : y1 ≤ y2)
    (h2 : y2 ≤ 2120) (hp : 0 ≤ v.purchase_cost) (ho : 0 ≤ v.operating_cost_per_mile) :
    (adjust_vehicle y1 v).technology_readiness_level =
      min 9 (v.technology_readiness_level + ⌊year_factor y1 * 2⌋) ∧
    (adjust_vehicle y1 v).purchase_cost = v.purchase_cost * (1 - year_factor y1 * 0.3) ∧
    (adjust_vehicle y1 v).operating_cost_per_mile =
      v.operating_cost_per_mile * (1 - year_factor y1 * 0.2) ∧
    (adjust_vehicle y1 v).technology_readiness_level ≤ 9 ∧
    0 ≤ (adjust_vehicle y2 v).purchase_cost ∧
    0 ≤ (adjust_vehicle y2 v).operating_cost_per_mile ∧
    (adjust_vehicle y2 v).purchase_cost ≤ (adjust_vehicle y1 v).purchase_cost ∧
    (adjust_vehicle y2 v).operating_cost_per_mile ≤
      (adjust_vehicle y1 v).operating_cost_per_mile := by
  have hc1 : (2020 : ℚ) < (y1 : ℚ) := by exact_mod_cast h1
  have hc12 : (y1 : ℚ) ≤ (y2 : ℚ) := by exact_mod_cast h12
  have hc2 : (y2 : ℚ) ≤ 2120 := by exact_mod_cast h2
  have hyf1 : 0 ≤ year_factor y1 := by
    unfold year_factor
    linarith
  have hyf12 : year_factor y1 ≤ year_factor y2 := by
    unfold year_factor
    linarith
  have hm2p : 0 ≤ 1 - year_factor y2 * 0.3 := by
    unfold year_factor
    linarith
  have hm2o : 0 ≤ 1 - year_factor y2 * 0.2 := by
    unfold year_factor
    linarith
  refine ⟨?_, rfl, rfl, ?_, ?_, ?_, ?_, ?_⟩
  · show min 9 (v.technology_readiness_level + pyTrunc (year_factor y1 * 2)) = _
    unfold pyTrunc
    rw [if_pos (by linarith)]
  · exact min_le_left _ _
  · exact mul_nonneg hp hm2p
  · exact mul_nonneg ho hm2o
  · exact mul_le_mul_of_nonneg_left (by linarith) hp
  · exact mul_le_mul_of_nonneg_left (by linarith) ho

/-- C8 amended witness: the formulas, the TRL cap, nonnegativity and
monotonicity at the concrete demo electric car between 2030 and 2050. -/
theorem c8_amended_witness :
    (adjust_vehicle 2030 (mkDemoCar 0)).technology_readiness_level =
      min 9 ((mkDemoCar 0).technology_readiness_level + ⌊year_factor 2030 * 2⌋) ∧
    (adjust_vehicle 2030 (mkDemoCar 0)).purchase_cost =
      (mkDemoCar 0).purchase_cost * (1 - year_factor 2030 * 0.3) ∧
    (adjust_vehicle 2030 (mkDemoCar 0)).operating_cost_per_mile =
      (mkDemoCar 0).operating_cost_per_mile * (1 - year_factor 2030 * 0.2) ∧
    (adjust_vehicle 2030 (mkDemoCar 0)).technology_readiness_level ≤ 9 ∧
    0 ≤ (adjust_vehicle 2050 (mkDemoCar 0)).purchase_cost ∧
    0 ≤ (adjust_vehicle 2050 (mkDemoCar 0)).operating_cost_per_mile ∧
    (adjust_vehicle 2050 (mkDemoCar 0)).purchase_cost ≤
      (adjust_vehicle 2030 (mkDemoCar 0)).purchase_cost ∧
    (adjust_vehicle 2050 (mkDemoCar 0)).operating_cost_per_mile ≤
      (adjust_vehicle 2030 (mkDemoCar 0)).operating_cost_per_mile :=
  c8_amended (mkDemoCar 0) 2030 2050 (by decide) (by decide) (by decide)
    (by norm_num [mkDemoCar]) (by norm_num [mkDemoCar])

/-- C9: the computed adoption rates agree, entry by entry, with the
spec-side formula: min(0.95, base*(1+3f)) for Electric,
min(0.8, base*(1+2f)*(1-0.5f)) for Hybrid, max(0.05, base*(1-2f)) for
every other technology, with f the year factor and base the scenario
adoption_rates[vehicle_type][technology] defaulting to 0.1. -/
theorem c9_adoption_rates_match_spec (vehicle_type : String) (year : ℤ)
    (vehicle_data : List (String × VehicleData)) (constraints : List (String × PyVal))
    (scenario_data : ScenarioData) :
    calculate_adoption_rates vehicle_type year vehicle_data constraints scenario_data =
      vehicle_data.map (fun kv =>
        (kv.1, adoptionRateSpec (baseRateSpec scenario_data vehicle_type kv.2.technology)
          (year_factor year) kv.2.technology)) := by
  simp only [calculate_adoption_rates, adoptionRateSpec, baseRateSpec]
  apply List.map_congr_left
  intro kv _
  split_ifs with he hh
  · rw [show (1 + year_factor year * 3 : ℚ) = 1 + 3 * year_factor year from by ring]
  · rw [show (1 + year_factor year * 2 : ℚ) = 1 + 2 * year_factor year from by ring,
      show (1 - year_factor year * 0.5 : ℚ) = 1 - 0.5 * year_factor year from by ring]
  · rw [show (1 - year_factor year * 2 : ℚ) = 1 - 2 * year_factor year from by ring]

/-- C10: _calculate_vehicle_type is a deterministic function of
(year, vehicle_type, constraints, scenario_data): its result does not
depend on the engine state (the only mutable state) and the state is
returned unchanged, so two calls with the same arguments produce
identical results; the demo roster is rebuilt from the same literals on
every call, and the adoption rates and all six calculation categories
are pure functions of the roster and arguments. -/
theorem c10_calculate_vehicle_type_deterministic (s₁ s₂ : EngineState) (year : ℤ)
    (vehicle_type : String) (constraints : List (String × PyVal))
    (scenario_data : ScenarioData) :
    calculate_vehicle_type s₁ year vehicle_type constraints scenario_data =
      (calculate_vehicle_type s₂ year vehicle_type constraints scenario_data).map
        (fun p => (p.1, s₁)) := by
  unfold calculate_vehicle_type
  cases h : calculate_energy_consumption
      (get_vehicle_data vehicle_type year scenario_data)
      (calculate_adoption_rates vehicle_type year
        (get_vehicle_data vehicle_type year scenario_data) constraints scenario_data)
      year with
  | error e => simp [h, Except.map]
  | ok en => simp [h, Except.map]

end PathwayPlanner
